import Mathlib

/-!
Shallow embedding of the mcp-vibe-coding-tools tool-dispatch server
(TypeScript) in Lean 4, for checking its natural-language specification.

The embedding covers:
* the JavaScript idioms the handlers rely on (truthiness fallback `x || d`,
  `String.prototype.startsWith`, `trim`);
* Node's `path.resolve` / `path.dirname` normalization over POSIX paths;
* `validatePath` and the filesystem tools from `src/tools/filesystem.ts`;
* the CLI tools (`execute_command`, `get_environment`, `which_command`)
  from `src/tools/cli.ts`;
* the npm tools from `src/tools/nodejs.ts`;
* the zod argument schemas (with `optional` / `default` wrapper semantics)
  used by `src/tools/cli.ts` and `src/tools/github-actions.ts`;
* the GitHub credential check from `src/tools/github-actions.ts`;
* the registries assembled at startup by `src/index.ts` and
  `src/gitops-server.ts`.

External collaborators (the filesystem, the subprocess layer, the network)
are modelled by explicit state / outcome parameters; every syscall a handler
attempts is recorded in an `ops` trace so that "rejected before any syscall"
is expressible.
-/

namespace MVCT

/-! ## JavaScript primitives -/

/-- JavaScript `v || d` for an optionally-present numeric value: `undefined`
and `0` are falsy, so both fall back to the default. -/
def jsOrNum (v : Option Int) (d : Int) : Int :=
  match v with
  | some n => if n = 0 then d else n
  | none => d

/-- JavaScript `v || d` for an optionally-present string value: `undefined`
and the empty string are falsy, so both fall back to the default. -/
def jsOrStr (v : Option String) (d : String) : String :=
  match v with
  | some s => if s = ("") then d else s
  | none => d

/-- JavaScript truthiness of an optionally-present string
(`if (args.variable)` style tests): `undefined` and `""` are falsy. -/
def jsTruthy (v : Option String) : Bool :=
  match v with
  | some s => decide (s ≠ "")
  | none => false

/-- JavaScript `v || null` for a string-valued environment lookup: an unset
variable and a variable set to the empty string both yield `null`. -/
def jsOrNull (v : Option String) : Option String :=
  match v with
  | some s => if s = ("") then none else some s
  | none => none

/-- `String.prototype.startsWith` on code points. -/
def strStartsWith (s pre : String) : Bool :=
  List.isPrefixOf pre.data s.data

/-- One whitespace character as trimmed by `String.prototype.trim`
(the characters that actually occur in subprocess output). -/
def isWS (c : Char) : Bool :=
  c = ' ' || c = '\n' || c = '\t' || c = '\r'

/-- `String.prototype.trim`: drop whitespace from both ends. -/
def strTrim (s : String) : String :=
  ⟨((s.data.dropWhile isWS).reverse.dropWhile isWS).reverse⟩

/-- JavaScript `e.stdout?.trim() || d`: optional chaining followed by a
truthiness fallback (absent value and all-whitespace value both fall back). -/
def jsOrTrim (v : Option String) (d : String) : String :=
  jsOrStr (v.map strTrim) d

/-! ## POSIX path resolution (Node `path.resolve` / `path.dirname`) -/

/-- Split a character list on `/`. -/
def splitSlash : List Char → List Char → List (List Char)
  | acc, [] => [acc.reverse]
  | acc, c :: rest =>
    if c = '/' then acc.reverse :: splitSlash [] rest
    else splitSlash (c :: acc) rest

/-- The `/`-separated segments of a raw path string. -/
def rawSegs (s : String) : List String :=
  (splitSlash [] s.data).map (fun cs => ⟨cs⟩)

/-- Normalization loop of `path.normalize` on an absolute path: empty and
`.` segments are dropped, `..` pops the last kept segment (and is dropped at
the root), any other segment is kept. `acc` holds kept segments reversed. -/
def normLoop : List String → List String → List String
  | acc, [] => acc.reverse
  | acc, seg :: rest =>
    if seg = ("") ∨ seg = (".") then normLoop acc rest
    else if seg = ("..") then normLoop (acc.drop 1) rest
    else normLoop (seg :: acc) rest

/-- Join segments with `/`. -/
def joinSegs : List String → String
  | [] => ""
  | [s] => s
  | s :: rest => s ++ "/" ++ joinSegs rest

/-- Render a normalized segment list as an absolute path string. -/
def renderAbs (segs : List String) : String :=
  "/" ++ joinSegs segs

/-- The normalized segment list of a path string. -/
def segsOf (s : String) : List String :=
  normLoop [] (rawSegs s)

/-- Node `path.resolve(base, input)` with an absolute `base`: an absolute
`input` is normalized on its own, otherwise `base + "/" + input` is
normalized. -/
def pathResolve (base input : String) : String :=
  if strStartsWith input ("/") then renderAbs (segsOf input)
  else renderAbs (segsOf (base ++ "/" ++ input))

/-- Node `path.dirname` of a normalized absolute path. -/
def dirname (p : String) : String :=
  renderAbs (segsOf p).dropLast

/-- Path-tree containment: `p` denotes the root itself or a location inside
the root's directory subtree.  This is the meaning of "inside the workspace
root"; note it is strictly finer than a raw string-prefix test. -/
def isWithin (root p : String) : Bool :=
  p = root || strStartsWith p (root ++ "/")

/-! ## `validatePath` (src/tools/filesystem.ts lines 10–16) -/

/-- `validatePath` from `src/tools/filesystem.ts`: resolve the request path
against the workspace root and reject it when the resolved string does not
start with the workspace root; otherwise return the resolved path. -/
def validatePath (workspacePath inputPath : String) : Except String String :=
  let resolvedPath := pathResolve workspacePath inputPath
  if strStartsWith resolvedPath workspacePath then Except.ok resolvedPath
  else Except.error ("Access denied: Path outside workspace")

/-! ## Response Envelope (src/utils/response.ts) -/

/-- One content block of a Response Envelope: `{ type: "text", text: ... }`.
The `text` is kept structured (the source serializes it with
`JSON.stringify`, which is injective on these payloads). -/
structure ContentBlock (α : Type) where
  ty : String
  text : α
deriving DecidableEq

/-- The Response Envelope shape every handler returns:
`{ content: [ ... ] }`. -/
structure Envelope (α : Type) where
  content : List (ContentBlock α)
deriving DecidableEq

/-- `formatToolResponse` from `src/utils/response.ts`: wrap arbitrary data
in a single text content block. -/
def formatToolResponse {α : Type} (data : α) : Envelope α :=
  ⟨[⟨"text", data⟩]⟩

/-! ## Filesystem state (the external `fs` collaborator)

The filesystem is modelled at the granularity the handlers use: a set of
existing directories and a map from file paths to contents, keyed by
normalized absolute paths represented as segment lists. -/

abbrev FsPath := List String

/-- The state of the external filesystem. -/
structure FS where
  dirs : List FsPath
  files : List (FsPath × String)
deriving DecidableEq

/-- `p` is an existing directory. -/
def isDir (st : FS) (p : FsPath) : Prop := p ∈ st.dirs

instance (st : FS) (p : FsPath) : Decidable (isDir st p) :=
  inferInstanceAs (Decidable (p ∈ st.dirs))

/-- `p` is an existing file. -/
def isFile (st : FS) (p : FsPath) : Prop := p ∈ st.files.map Prod.fst

instance (st : FS) (p : FsPath) : Decidable (isFile st p) :=
  inferInstanceAs (Decidable (p ∈ st.files.map Prod.fst))

/-- `fs.readFile`: the content of file `p`, if it exists. -/
def readFileFS (st : FS) (p : FsPath) : Option String :=
  (st.files.find? (fun f => decide (f.1 = p))).map Prod.snd

/-- All ancestors of `d`, shortest first, ending with `d` itself. -/
def prefixesOf (d : FsPath) : List FsPath :=
  (List.range (d.length + 1)).map (fun i => d.take i)

/-- `fs.mkdir(d, { recursive: true })`: create `d` and all missing
ancestors; fails only when some ancestor (or `d` itself) is a file. -/
def mkdirRec (st : FS) (d : FsPath) : Option FS :=
  if (prefixesOf d).any (fun a => decide (isFile st a)) then none
  else some { st with dirs := st.dirs ++ (prefixesOf d).filter (fun a => decide (¬ isDir st a)) }

/-- `fs.writeFile`: requires the parent directory to exist and the target
not to be a directory; overwrites an existing file. -/
def writeFileFS (st : FS) (p : FsPath) (c : String) : Option FS :=
  if isDir st p.dropLast ∧ ¬ isDir st p then
    some { st with files := (p, c) :: st.files }
  else none

/-! ## Filesystem tool handlers (src/tools/filesystem.ts)

Each handler returns the envelope (or the error it throws), the filesystem
state afterwards, and the trace of syscalls it attempted, in order. -/

/-- The outcome of one handler invocation against filesystem state. -/
structure HOut (α : Type) [DecidableEq α] where
  result : Except String (Envelope α)
  fs : FS
  ops : List String

/-- Payload of a successful `read_file` call. -/
structure ReadFileResult where
  success : Bool
  path : String
  content : String
  size : Nat
deriving DecidableEq

/-- The `read_file` handler: validate the path, then read. The `encoding`
argument reaches the handler unvalidated; the handler's own fallback is
`args.encoding || "utf8"`, recorded by `read_file_effectiveEncoding`. -/
def read_file_handler (root : String) (st : FS) (path : String) : HOut ReadFileResult :=
  match validatePath root path with
  | .error e => ⟨.error e, st, []⟩
  | .ok validPath =>
    match readFileFS st (segsOf validPath) with
    | none => ⟨.error (("ENOENT: no such file or directory, open ") ++ validPath), st,
              [("fs.readFile ") ++ validPath]⟩
    | some content =>
      ⟨.ok (formatToolResponse ⟨true, path, content, content.length⟩), st,
       [("fs.readFile ") ++ validPath]⟩

/-- The handler-side encoding fallback `args.encoding || "utf8"` in
`read_file` (and `write_file`). -/
def read_file_effectiveEncoding (encoding : Option String) : String :=
  jsOrStr encoding ("utf8")

/-- Payload of a successful `write_file` call: `size` is the length of the
written content. -/
structure WriteFileResult where
  success : Bool
  path : String
  size : Nat
deriving DecidableEq

/-- The `write_file` handler: validate, `fs.mkdir(path.dirname(validPath),
{ recursive: true })`, then `fs.writeFile(validPath, content)`. -/
def write_file_handler (root : String) (st : FS) (path content : String) : HOut WriteFileResult :=
  match validatePath root path with
  | .error e => ⟨.error e, st, []⟩
  | .ok validPath =>
    let parent := (segsOf validPath).dropLast
    let mkOp := ("fs.mkdir ") ++ dirname validPath
    match mkdirRec st parent with
    | none => ⟨.error (("ENOTDIR: not a directory, mkdir ") ++ dirname validPath), st, [mkOp]⟩
    | some st1 =>
      let wrOp := ("fs.writeFile ") ++ validPath
      match writeFileFS st1 (segsOf validPath) content with
      | none => ⟨.error (("EISDIR: illegal operation on a directory, open ") ++ validPath),
                st1, [mkOp, wrOp]⟩
      | some st2 =>
        ⟨.ok (formatToolResponse ⟨true, path, content.length⟩), st2, [mkOp, wrOp]⟩

/-- One entry of a `list_directory` listing (`type` field rendered as
`kind`). -/
structure DirItem where
  name : String
  kind : String
  size : Nat
deriving DecidableEq

/-- Payload of a successful `list_directory` call. -/
structure ListDirResult where
  success : Bool
  path : String
  items : List DirItem
deriving DecidableEq

/-- Subdirectories directly under `p`. -/
def childDirs (st : FS) (p : FsPath) : List FsPath :=
  st.dirs.filter (fun d => decide (d.dropLast = p ∧ d.length = p.length + 1))

/-- Files directly under `p`. -/
def childFiles (st : FS) (p : FsPath) : List (FsPath × String) :=
  st.files.filter (fun f => decide (f.1.dropLast = p ∧ f.1.length = p.length + 1))

/-- The `list_directory` handler: `validatePath(args.path || ".")`, then
`fs.readdir` plus one `fs.stat` per entry.  The source's `recursive` branch
reads `subItems.items` from a value that is actually a Response Envelope
(which has no `items` field), so it never contributes items; it is
therefore not modelled. -/
def list_directory_handler (root : String) (st : FS) (path : Option String) : HOut ListDirResult :=
  match validatePath root (jsOrStr path (".")) with
  | .error e => ⟨.error e, st, []⟩
  | .ok validPath =>
    let p := segsOf validPath
    if isDir st p then
      let dirItems := (childDirs st p).map
        (fun d => (⟨d.getLast?.getD (""), ("directory"), 0⟩ : DirItem))
      let fileItems := (childFiles st p).map
        (fun f => (⟨f.1.getLast?.getD (""), ("file"), f.2.length⟩ : DirItem))
      ⟨.ok (formatToolResponse ⟨true, jsOrStr path ("."), dirItems ++ fileItems⟩), st,
       (("fs.readdir ") ++ validPath) ::
         (dirItems ++ fileItems).map (fun i => ("fs.stat ") ++ i.name)⟩
    else
      ⟨.error (("ENOENT: no such file or directory, scandir ") ++ validPath), st,
       [("fs.readdir ") ++ validPath]⟩

/-- Payload of a successful `file_info` call. -/
structure FileInfoResult where
  success : Bool
  path : String
  kind : String
  size : Nat
deriving DecidableEq

/-- The `file_info` handler: validate, then `fs.stat`. -/
def file_info_handler (root : String) (st : FS) (path : String) : HOut FileInfoResult :=
  match validatePath root path with
  | .error e => ⟨.error e, st, []⟩
  | .ok validPath =>
    let p := segsOf validPath
    let op := ("fs.stat ") ++ validPath
    if isDir st p then ⟨.ok (formatToolResponse ⟨true, path, ("directory"), 0⟩), st, [op]⟩
    else
      match readFileFS st p with
      | some c => ⟨.ok (formatToolResponse ⟨true, path, ("file"), c.length⟩), st, [op]⟩
      | none => ⟨.error (("ENOENT: no such file or directory, stat ") ++ validPath), st, [op]⟩

/-- Payload of a successful `create_directory` call. -/
structure CreateDirResult where
  success : Bool
  path : String
deriving DecidableEq

/-- The `create_directory` handler: validate, then
`fs.mkdir(validPath, { recursive: true })`. -/
def create_directory_handler (root : String) (st : FS) (path : String) : HOut CreateDirResult :=
  match validatePath root path with
  | .error e => ⟨.error e, st, []⟩
  | .ok validPath =>
    let op := ("fs.mkdir ") ++ validPath
    match mkdirRec st (segsOf validPath) with
    | none => ⟨.error (("ENOTDIR: not a directory, mkdir ") ++ validPath), st, [op]⟩
    | some st1 => ⟨.ok (formatToolResponse ⟨true, path⟩), st1, [op]⟩

/-! ## Subprocess layer (the external `child_process.exec` collaborator) -/

/-- The rejection value of a failed `execAsync` call: Node attaches the
captured output, an exit `code` (absent when the process was killed, e.g.
on timeout), and the `killed` flag. -/
structure ExecError where
  message : String
  stdout : Option String
  stderr : Option String
  code : Option Int
  killed : Bool
deriving DecidableEq

/-- The outcome of the spawned subprocess: resolution with captured output,
or rejection (non-zero exit, timeout kill, output over `maxBuffer`, ...). -/
inductive ExecOutcome where
  | ok (stdout stderr : String)
  | err (e : ExecError)
deriving DecidableEq

/-- The options object a handler passes to `execAsync`. -/
structure ExecOptions where
  cwd : String
  timeout : Int
  maxBuffer : Option Nat
deriving DecidableEq

/-! ## CLI tool handlers (src/tools/cli.ts) -/

/-- Arguments of `execute_command` as they reach the handler (`cwd` and
`timeout` may be absent, see the zod schema model below). -/
structure CmdArgs where
  command : String
  cwd : Option String
  timeout : Option Int
deriving DecidableEq

/-- The result object `execute_command` serializes into its envelope. -/
structure CmdResult where
  success : Bool
  command : String
  stdout : String
  stderr : String
  exitCode : Int
  error : Option String
deriving DecidableEq

/-- The options `execute_command` passes to `execAsync`: the working
directory is always `workspacePath` (the `cwd` argument is never read),
the timeout is `args.timeout || 30000`, and `maxBuffer` is 10 MB. -/
def execute_command_options (root : String) (args : CmdArgs) : ExecOptions :=
  ⟨root, jsOrNum args.timeout 30000, some (1024 * 1024 * 10)⟩

/-- The `execute_command` handler: the whole body sits in `try/catch`, so
both subprocess outcomes become envelopes and no error escapes. -/
def execute_command_run (root : String) (args : CmdArgs) (outcome : ExecOutcome) :
    ExecOptions × Except ExecError (Envelope CmdResult) :=
  (execute_command_options root args,
   match outcome with
   | .ok stdout stderr =>
     .ok (formatToolResponse ⟨true, args.command, strTrim stdout, strTrim stderr, 0, none⟩)
   | .err e =>
     .ok (formatToolResponse
       ⟨false, args.command, jsOrTrim e.stdout (""), jsOrTrim e.stderr e.message,
        jsOrNum e.code 1, some e.message⟩))

/-- A process environment, as a binding list. -/
abbrev Env := List (String × String)

/-- `process.env[k]`. -/
def lookupEnv (env : Env) (k : String) : Option String :=
  (env.find? (fun kv => decide (kv.1 = k))).map Prod.snd

/-- The two payload shapes `get_environment` can produce. -/
inductive GetEnvPayload where
  | varValue (varName : String) (value : Option String)
  | allEnv (environment : Env)
deriving DecidableEq

/-- The `get_environment` handler: `if (args.variable)` (JS truthiness)
returns `{ success, variable, value: process.env[v] || null }`, otherwise
`{ success, environment: process.env }` — the whole environment. -/
def get_environment_run (env : Env) (varArg : Option String) : Envelope GetEnvPayload :=
  if jsTruthy varArg then
    let v := varArg.getD ("")
    formatToolResponse (.varValue v (jsOrNull (lookupEnv env v)))
  else formatToolResponse (.allEnv env)

/-- The result object `which_command` serializes into its envelope. -/
structure WhichResult where
  success : Bool
  command : String
  path : Option String
  error : Option String
deriving DecidableEq

/-- The `which_command` handler: `which`/`where` output on success, a
caught failure otherwise. -/
def which_command_run (command : String) (outcome : ExecOutcome) : Envelope WhichResult :=
  match outcome with
  | .ok stdout _ => formatToolResponse ⟨true, command, some (strTrim stdout), none⟩
  | .err _ => formatToolResponse ⟨false, command, none, some ("Command not found")⟩

/-! ## npm tool handlers (src/tools/nodejs.ts) -/

/-- Join strings with a single space (`Array.prototype.join(" ")`). -/
def joinSpace : List String → String
  | [] => ""
  | [s] => s
  | s :: rest => s ++ " " ++ joinSpace rest

/-- Arguments of `npm_install`. -/
structure NpmInstallArgs where
  packages : Option (List String)
  dev : Option Bool
  global : Option Bool
deriving DecidableEq

/-- JS truthiness of an optionally-present boolean. -/
def jsOrBool (v : Option Bool) : Bool := v.getD false

/-- The command string `npm_install` assembles. -/
def npm_install_command (args : NpmInstallArgs) : String :=
  let c1 := ("npm install")
  let c2 := if jsOrBool args.global then c1 ++ " -g" else c1
  let c3 := if jsOrBool args.dev then c2 ++ " --save-dev" else c2
  match args.packages with
  | some ps => if ps.length > 0 then c3 ++ " " ++ joinSpace ps else c3
  | none => c3

/-- The result object `npm_install` serializes on success. -/
structure NpmResult where
  success : Bool
  command : String
  packages : List String
  stdout : String
  stderr : String
deriving DecidableEq

/-- The `npm_install` handler: `execAsync(command, { cwd: workspacePath,
timeout: 300000 })` with NO `try/catch` — a rejection (e.g. a timeout kill)
propagates out of the handler instead of becoming an envelope. -/
def npm_install_run (root : String) (args : NpmInstallArgs) (outcome : ExecOutcome) :
    ExecOptions × Except ExecError (Envelope NpmResult) :=
  (⟨root, 300000, none⟩,
   match outcome with
   | .ok stdout stderr =>
     .ok (formatToolResponse
       ⟨true, npm_install_command args, args.packages.getD [("all dependencies")],
        strTrim stdout, strTrim stderr⟩)
   | .err e => .error e)

/-- The result object `npm_run_script` serializes on success. -/
structure NpmRunResult where
  success : Bool
  script : String
  stdout : String
  stderr : String
deriving DecidableEq

/-- The `npm_run_script` handler: `execAsync("npm run " + script,
{ cwd: workspacePath, timeout: 300000 })`, again with no `try/catch`. -/
def npm_run_script_run (root : String) (script : String) (outcome : ExecOutcome) :
    ExecOptions × Except ExecError (Envelope NpmRunResult) :=
  (⟨root, 300000, none⟩,
   match outcome with
   | .ok stdout stderr =>
     .ok (formatToolResponse ⟨true, script, strTrim stdout, strTrim stderr⟩)
   | .err e => .error e)

/-! ## Remote-API credentials (src/tools/github-actions.ts) -/

/-- `checkGitHubAuth`: `const token = process.env.GITHUB_API_KEY; if
(!token) throw ...` — an unset (or empty, hence falsy) variable throws an
error naming the credential.  Called only inside handlers, never at module
load. -/
def checkGitHubAuth (env : Env) : Except String String :=
  match jsOrNull (lookupEnv env ("GITHUB_API_KEY")) with
  | none => .error ("GITHUB_API_KEY environment variable is not set. Please set it to use GitHub Actions tools.")
  | some token => .ok token

/-- `checkGitLabAuth`, same shape for the GitLab credential. -/
def checkGitLabAuth (env : Env) : Except String String :=
  match jsOrNull (lookupEnv env ("GITLAB_API_KEY")) with
  | none => .error ("GITLAB_API_KEY environment variable is not set. Please set it to use GitLab tools.")
  | some token => .ok token

/-- Module-level constant of `github-actions.ts`. -/
def GITHUB_API_BASE : String := "https://api.github.com"

/-- Arguments of `github_list_workflow_runs` as they reach the handler
(`per_page` is populated by its `.optional().default(30)` zod schema). -/
structure GhRunsArgs where
  owner : String
  repo : String
  branch : Option String
  status : Option String
  event : Option String
  actor : Option String
  per_page : Int
deriving DecidableEq

/-- Serialize a parameter list the way `URLSearchParams.toString` does for
these already-URL-safe values. -/
def joinParams : List (String × String) → String
  | [] => ""
  | [kv] => kv.1 ++ "=" ++ kv.2
  | kv :: rest => kv.1 ++ "=" ++ kv.2 ++ "&" ++ joinParams rest

/-- The query string `github_list_workflow_runs` builds: each optional
filter is appended only when truthy, then `per_page` always. -/
def ghParams (args : GhRunsArgs) : String :=
  let opt := fun (k : String) (v : Option String) =>
    if jsTruthy v then [(k, v.getD (""))] else ([] : List (String × String))
  joinParams
    (opt ("branch") args.branch ++ opt ("status") args.status ++
     opt ("event") args.event ++ opt ("actor") args.actor ++
     [(("per_page"), toString args.per_page)])

/-- The two payload shapes `github_list_workflow_runs` can produce: the raw
API response body on success, or `{ error: "Failed to list workflow runs:
..." }` for any caught error (missing credential included). -/
inductive GhPayload where
  | data (body : String)
  | failure (error : String)
deriving DecidableEq

/-- The `github_list_workflow_runs` handler.  `fetchResult` stands for the
external HTTPS call; the returned list records the network requests made.
When the credential check throws, the `catch` produces a failure envelope
and no request is issued. -/
def github_list_workflow_runs_run (env : Env) (args : GhRunsArgs)
    (fetchResult : Except String String) : Envelope GhPayload × List String :=
  match checkGitHubAuth env with
  | .error e => (formatToolResponse (.failure (("Failed to list workflow runs: ") ++ e)), [])
  | .ok _token =>
    let url := GITHUB_API_BASE ++ "/repos/" ++ args.owner ++ "/" ++ args.repo ++
      "/actions/runs?" ++ ghParams args
    match fetchResult with
    | .ok body => (formatToolResponse (.data body), [url])
    | .error e => (formatToolResponse (.failure (("Failed to list workflow runs: ") ++ e)), [url])

/-! ## zod argument schemas (as used by src/tools/cli.ts and
src/tools/github-actions.ts) -/

/-- A JSON value as passed in raw tool arguments. -/
inductive JVal where
  | str (s : String)
  | num (n : Int)
  | boolean (b : Bool)
deriving DecidableEq

/-- The fragment of zod the schemas use.  `optional t` is `t.optional()`
(wrapping last binds outermost), `withDefault t d` is `t.default(d)`. -/
inductive ZodTy where
  | number
  | string
  | boolean
  | optional (t : ZodTy)
  | withDefault (t : ZodTy) (d : JVal)
deriving DecidableEq

/-- zod parsing of one field.  `ZodOptional` returns `undefined` for an
absent input WITHOUT consulting the wrapped type (so an inner `default` is
skipped); `ZodDefault` substitutes its default for an absent input and
parses it with the wrapped type. -/
def parseZod : ZodTy → Option JVal → Except String (Option JVal)
  | .optional _, none => .ok none
  | .optional t, some v => parseZod t (some v)
  | .withDefault t d, none => parseZod t (some d)
  | .withDefault t _, some v => parseZod t (some v)
  | .number, some (.num n) => .ok (some (.num n))
  | .number, _ => .error ("Expected number, received undefined")
  | .string, some (.str s) => .ok (some (.str s))
  | .string, _ => .error ("Expected string, received undefined")
  | .boolean, some (.boolean b) => .ok (some (.boolean b))
  | .boolean, _ => .error ("Expected boolean, received undefined")

/-- Raw-argument lookup. -/
def lookupRaw (raw : List (String × JVal)) (k : String) : Option JVal :=
  (raw.find? (fun kv => decide (kv.1 = k))).map Prod.snd

/-- zod object parsing: each declared field is parsed from the raw
arguments (absent fields parse as `undefined`); unknown keys are
stripped. -/
def parseObject (shape : List (String × ZodTy)) (raw : List (String × JVal)) :
    Except String (List (String × Option JVal)) :=
  shape.mapM (fun kt => (parseZod kt.2 (lookupRaw raw kt.1)).map (fun v => (kt.1, v)))

/-- A validated field's value. -/
def validatedField (va : List (String × Option JVal)) (k : String) : Option JVal :=
  ((va.find? (fun kv => decide (kv.1 = k))).map Prod.snd).join

/-- The `execute_command` input schema from `src/tools/cli.ts`:
`command: z.string()`, `cwd: z.string().default(".").optional()`,
`timeout: z.number().default(30000).optional()`. -/
def executeCommandShape : List (String × ZodTy) :=
  [(("command"), .string),
   (("cwd"), .optional (.withDefault .string (.str (".")))),
   (("timeout"), .optional (.withDefault .number (.num 30000)))]

/-- The `per_page` schema from `github_list_workflow_runs`:
`z.number().optional().default(30)` — note the opposite wrapper order. -/
def perPageSchema : ZodTy := .withDefault (.optional .number) (.num 30)

/-! ## Startup registration (src/index.ts and src/gitops-server.ts) -/

/-- Modelled from the spec: the protocol SDK's `registerTool` (the SDK
itself is not part of this repository) — "name uniqueness is enforced at
registration time; registering a duplicate name is a configuration error".
Registering a name already present in the registry raises; otherwise the
descriptor's name is appended. -/
def registerTool (reg : List String) (name : String) : Except String (List String) :=
  if name ∈ reg then .error (("Tool ") ++ name ++ " is already registered")
  else .ok (reg ++ [name])

/-- The startup loop `for (const tool of allTools) server.registerTool(...)`. -/
def buildRegistry (names : List String) : Except String (List String) :=
  List.foldlM registerTool ([]) names

/-- Tool names contributed by `filesystemTools`. -/
def filesystemToolNames : List String :=
  [("read_file"), ("write_file"), ("list_directory"), ("search_files"),
   ("file_info"), ("create_directory")]

/-- Tool names contributed by `cliTools`. -/
def cliToolNames : List String :=
  [("execute_command"), ("get_environment"), ("which_command")]

/-- Tool names contributed by `gitTools`. -/
def gitToolNames : List String :=
  [("git_status"), ("git_log"), ("git_diff"), ("git_branch"), ("git_commit"),
   ("git_push"), ("git_pull"), ("git_clone"), ("git_stash")]

/-- Tool names contributed by `webTools`. -/
def webToolNames : List String :=
  [("fetch_webpage"), ("parse_html"), ("extract_links"), ("download_file")]

/-- Tool names contributed by `nodejsTools`. -/
def nodejsToolNames : List String :=
  [("npm_install"), ("npm_run_script"), ("npm_outdated"), ("npm_init"),
   ("read_package_json")]

/-- Tool names contributed by `pythonTools`. -/
def pythonToolNames : List String :=
  [("python_create_venv"), ("pip_install"), ("pip_freeze"),
   ("python_run_script"), ("python_version")]

/-- Tool names contributed by `testTools`. -/
def testToolNames : List String :=
  [("run_tests"), ("build_project"), ("start_dev_server"), ("lint_code")]

/-- Tool names contributed by `automationTools`. -/
def automationToolNames : List String :=
  [("validate_project"), ("create_validation_script"),
   ("setup_project_automation"), ("generate_project_docs"),
   ("fix_common_issues")]

/-- Tool names contributed by `diagnosticsTools`. -/
def diagnosticsToolNames : List String :=
  [("get_vscode_problems"), ("read_log_file"), ("find_log_files"),
   ("analyze_error_logs"), ("watch_log_changes"), ("aggregate_logs"),
   ("get_terminal_history"), ("search_logs"), ("get_xcode_logs"),
   ("get_android_logs"), ("get_flutter_logs"), ("get_react_native_logs")]

/-- `allTools` from `src/index.ts`: the nine groups concatenated in import
order. -/
def allToolNames : List String :=
  filesystemToolNames ++ cliToolNames ++ gitToolNames ++ webToolNames ++
  nodejsToolNames ++ pythonToolNames ++ testToolNames ++
  automationToolNames ++ diagnosticsToolNames

/-- Tool names contributed by `githubActionsTools`. -/
def githubActionsToolNames : List String :=
  [("github_list_workflow_runs"), ("github_get_workflow_run"),
   ("github_list_workflow_jobs"), ("github_get_job_logs"),
   ("github_list_workflows"), ("github_get_workflow_run_logs")]

/-- Tool names contributed by `gitlabCITools`. -/
def gitlabCIToolNames : List String :=
  [("gitlab_list_pipelines"), ("gitlab_get_pipeline"),
   ("gitlab_list_pipeline_jobs"), ("gitlab_get_job"),
   ("gitlab_get_job_trace"), ("gitlab_list_project_jobs"),
   ("gitlab_get_pipeline_variables")]

/-- Tool names contributed by `gitlabAPITools`. -/
def gitlabAPIToolNames : List String :=
  [("gitlab_get_group"), ("gitlab_list_group_subgroups"),
   ("gitlab_list_group_projects"), ("gitlab_list_descendant_groups"),
   ("gitlab_get_project"), ("gitlab_list_projects"), ("gitlab_list_issues"),
   ("gitlab_get_issue"), ("gitlab_create_issue"), ("gitlab_update_issue"),
   ("gitlab_list_issue_notes"), ("gitlab_create_issue_note"),
   ("gitlab_list_merge_requests"), ("gitlab_get_merge_request"),
   ("gitlab_create_merge_request"), ("gitlab_update_merge_request"),
   ("gitlab_merge_merge_request"), ("gitlab_list_mr_changes"),
   ("gitlab_list_mr_notes"), ("gitlab_create_mr_note"),
   ("gitlab_approve_merge_request"), ("gitlab_search_issues_global"),
   ("gitlab_search_merge_requests_global"), ("gitlab_search_group_issues"),
   ("gitlab_search_group_merge_requests")]

/-- `allTools` from `src/gitops-server.ts`. -/
def gitopsToolNames : List String :=
  githubActionsToolNames ++ gitlabCIToolNames ++ gitlabAPIToolNames

/-- Startup of the GitOps server: module initialization evaluates
`GITLAB_HOST = process.env.GITLAB_HOST || "https://gitlab.com"` (the only
top-level environment read in its tool modules; the API credentials are
read only inside handlers) and then registers every tool. -/
def gitopsStartup (env : Env) : Except String (String × List String) :=
  let gitlabHost := jsOrStr (lookupEnv env ("GITLAB_HOST")) ("https://gitlab.com")
  (buildRegistry gitopsToolNames).map (fun reg => (gitlabHost, reg))

/-! ## Envelope outcome discriminants

Each payload object a handler serializes carries its discriminated
outcome: a `success` flag together with the presence or absence of a
failure description (`error` field).  `unambiguous` holds when exactly one
of the two is set. -/

/-- Exactly one of two booleans is set. -/
def exactlyOneB (a b : Bool) : Bool := (a && !b) || (!a && b)

/-- Outcome discriminant of an `execute_command` payload. -/
def cmdUnambiguous (r : CmdResult) : Bool := exactlyOneB r.success r.error.isSome

/-- Outcome discriminant of a `which_command` payload. -/
def whichUnambiguous (r : WhichResult) : Bool := exactlyOneB r.success r.error.isSome

/-- Outcome discriminant of a `get_environment` payload (both shapes carry
`success: true` and no failure field). -/
def getEnvUnambiguous : GetEnvPayload → Bool
  | .varValue _ _ => exactlyOneB true false
  | .allEnv _ => exactlyOneB true false

/-- Outcome discriminant of a `github_list_workflow_runs` payload: raw API
data is a success with no failure field, the caught-error shape is a
failure with no success payload. -/
def ghUnambiguous : GhPayload → Bool
  | .data _ => exactlyOneB true false
  | .failure _ => exactlyOneB false true

/-- Outcome discriminant of a `read_file` payload (a `success` flag, no
failure field). -/
def readFileUnambiguous (r : ReadFileResult) : Bool := exactlyOneB r.success false

/-- Outcome discriminant of a `write_file` payload. -/
def writeFileUnambiguous (r : WriteFileResult) : Bool := exactlyOneB r.success false

/-- Outcome discriminant of a `list_directory` payload. -/
def listDirUnambiguous (r : ListDirResult) : Bool := exactlyOneB r.success false

/-- Outcome discriminant of a `file_info` payload. -/
def fileInfoUnambiguous (r : FileInfoResult) : Bool := exactlyOneB r.success false

/-- Outcome discriminant of a `create_directory` payload. -/
def createDirUnambiguous (r : CreateDirResult) : Bool := exactlyOneB r.success false

/-- Outcome discriminant of an `npm_install` payload. -/
def npmUnambiguous (r : NpmResult) : Bool := exactlyOneB r.success false

/-- Outcome discriminant of an `npm_run_script` payload. -/
def npmRunUnambiguous (r : NpmRunResult) : Bool := exactlyOneB r.success false

/-- Every content block of an envelope satisfies the discriminant check. -/
def envelopeAll {α : Type} (u : α → Bool) (e : Envelope α) : Bool :=
  e.content.all (fun b => u b.text)

/-- Lift the check through a possibly-thrown result: an error produced no
envelope, so there is nothing to check. -/
def exceptEnvAll {ε α : Type} (u : α → Bool) : Except ε (Envelope α) → Bool
  | .error _ => true
  | .ok e => envelopeAll u e

/-! ## Concrete inputs used by counterexamples and witnesses -/

/-- A filesystem holding a secret file in `/workspace2`, a sibling of the
`/workspace` root. -/
def sibFS : FS :=
  ⟨[[("workspace2")]], [([("workspace2"), ("secret.txt")], ("TOPSECRET"))]⟩


deriving instance DecidableEq for Except

/-- C1: code-bug exhibit.  The claim says every request path resolving
outside the workspace root is rejected before any read.  `validatePath`
implements the check as a raw string-prefix test, so the request
`../workspace2/secret.txt` against root `/workspace` resolves to
`/workspace2/secret.txt` — outside the root's directory tree — yet is
accepted, and `read_file` attempts the read and returns the file
contents. -/
theorem validatePath_sibling_escape :
    validatePath ("/workspace") ("../workspace2/secret.txt") =
      Except.ok ("/workspace2/secret.txt")
    ∧ isWithin ("/workspace") ("/workspace2/secret.txt") = false
    ∧ (read_file_handler ("/workspace") sibFS ("../workspace2/secret.txt")).result =
        Except.ok (formatToolResponse ⟨true, ("../workspace2/secret.txt"), ("TOPSECRET"), 9⟩)
    ∧ (read_file_handler ("/workspace") sibFS ("../workspace2/secret.txt")).ops =
        [("fs.readFile /workspace2/secret.txt")] :=
  ⟨rfl, by decide, rfl, rfl⟩

/-- C2: every Response Envelope produced by an embedded handler — for
every input and every external outcome, over both CLI handlers, the five
filesystem handlers, the GitHub handler and both npm handlers — carries an
unambiguous discriminated outcome: exactly one of success payload /
failure description, never both, never neither. -/
theorem envelope_exclusivity :
    (∀ (root : String) (args : CmdArgs) (outcome : ExecOutcome),
      exceptEnvAll cmdUnambiguous (execute_command_run root args outcome).2 = true)
  ∧ (∀ (command : String) (outcome : ExecOutcome),
      envelopeAll whichUnambiguous (which_command_run command outcome) = true)
  ∧ (∀ (env : Env) (varArg : Option String),
      envelopeAll getEnvUnambiguous (get_environment_run env varArg) = true)
  ∧ (∀ (env : Env) (args : GhRunsArgs) (fetch : Except String String),
      envelopeAll ghUnambiguous (github_list_workflow_runs_run env args fetch).1 = true)
  ∧ (∀ (root : String) (st : FS) (path : String),
      exceptEnvAll readFileUnambiguous (read_file_handler root st path).result = true)
  ∧ (∀ (root : String) (st : FS) (path content : String),
      exceptEnvAll writeFileUnambiguous (write_file_handler root st path content).result = true)
  ∧ (∀ (root : String) (st : FS) (path : Option String),
      exceptEnvAll listDirUnambiguous (list_directory_handler root st path).result = true)
  ∧ (∀ (root : String) (st : FS) (path : String),
      exceptEnvAll fileInfoUnambiguous (file_info_handler root st path).result = true)
  ∧ (∀ (root : String) (st : FS) (path : String),
      exceptEnvAll createDirUnambiguous (create_directory_handler root st path).result = true)
  ∧ (∀ (root : String) (args : NpmInstallArgs) (outcome : ExecOutcome),
      exceptEnvAll npmUnambiguous (npm_install_run root args outcome).2 = true)
  ∧ (∀ (root script : String) (outcome : ExecOutcome),
      exceptEnvAll npmRunUnambiguous (npm_run_script_run root script outcome).2 = true) := by
  refine ⟨?hexec, ?hwhich, ?hgenv, ?hgh, ?hread, ?hwrite, ?hlist, ?hinfo, ?hmkdir, ?hni, ?hnr⟩
  case hexec =>
    intro root args outcome
    cases outcome <;>
      simp [execute_command_run, exceptEnvAll, envelopeAll, formatToolResponse,
        cmdUnambiguous, exactlyOneB]
  case hwhich =>
    intro c outcome
    cases outcome <;>
      simp [which_command_run, envelopeAll, formatToolResponse, whichUnambiguous, exactlyOneB]
  case hgenv =>
    intro env v
    unfold get_environment_run
    split <;> simp [envelopeAll, formatToolResponse, getEnvUnambiguous, exactlyOneB]
  case hgh =>
    intro env args fetch
    unfold github_list_workflow_runs_run
    split
    · simp [envelopeAll, formatToolResponse, ghUnambiguous, exactlyOneB]
    · split <;> simp [envelopeAll, formatToolResponse, ghUnambiguous, exactlyOneB]
  case hread =>
    intro root st p
    unfold read_file_handler
    split
    · rfl
    · split <;>
        simp [exceptEnvAll, envelopeAll, formatToolResponse, readFileUnambiguous, exactlyOneB]
  case hwrite =>
    intro root st p c
    unfold write_file_handler
    split
    · rfl
    · dsimp only
      split
      · rfl
      · split <;>
          simp [exceptEnvAll, envelopeAll, formatToolResponse, writeFileUnambiguous, exactlyOneB]
  case hlist =>
    intro root st p
    unfold list_directory_handler
    split
    · rfl
    · dsimp only
      split <;>
        simp [exceptEnvAll, envelopeAll, formatToolResponse, listDirUnambiguous, exactlyOneB]
  case hinfo =>
    intro root st p
    unfold file_info_handler
    split
    · rfl
    · dsimp only
      split
      · simp [exceptEnvAll, envelopeAll, formatToolResponse, fileInfoUnambiguous, exactlyOneB]
      · split <;>
          simp [exceptEnvAll, envelopeAll, formatToolResponse, fileInfoUnambiguous, exactlyOneB]
  case hmkdir =>
    intro root st p
    unfold create_directory_handler
    split
    · rfl
    · split <;>
        simp [exceptEnvAll, envelopeAll, formatToolResponse, createDirUnambiguous, exactlyOneB]
  case hni =>
    intro root args outcome
    cases outcome <;>
      simp [npm_install_run, exceptEnvAll, envelopeAll, formatToolResponse,
        npmUnambiguous, exactlyOneB]
  case hnr =>
    intro root script outcome
    cases outcome <;>
      simp [npm_run_script_run, exceptEnvAll, envelopeAll, formatToolResponse,
        npmRunUnambiguous, exactlyOneB]


/-- C3: with `GITHUB_API_KEY` unset, `github_list_workflow_runs` returns
a failure envelope naming the missing credential and issues no network
request; GitOps server startup succeeds for every environment (its result
does not mention the credential at all); and `checkGitLabAuth` likewise
fails naming `GITLAB_API_KEY` when that credential is unset. -/
theorem missing_credential_isolated :
    (∀ (env : Env) (args : GhRunsArgs) (fetch : Except String String),
      lookupEnv env ("GITHUB_API_KEY") = none →
        github_list_workflow_runs_run env args fetch =
          (formatToolResponse (.failure ("Failed to list workflow runs: GITHUB_API_KEY environment variable is not set. Please set it to use GitHub Actions tools.")), []))
  ∧ (∀ env : Env, gitopsStartup env =
      Except.ok (jsOrStr (lookupEnv env ("GITLAB_HOST")) ("https://gitlab.com"), gitopsToolNames))
  ∧ (∀ env : Env, lookupEnv env ("GITLAB_API_KEY") = none →
      checkGitLabAuth env = Except.error ("GITLAB_API_KEY environment variable is not set. Please set it to use GitLab tools.")) := by
  refine ⟨?ghmiss, ?startup, ?glmiss⟩
  case ghmiss =>
    intro env args fetch h
    have hA : checkGitHubAuth env =
        Except.error ("GITHUB_API_KEY environment variable is not set. Please set it to use GitHub Actions tools.") := by
      unfold checkGitHubAuth
      rw [h]
      rfl
    unfold github_list_workflow_runs_run
    rw [hA]
    rfl
  case startup =>
    intro env
    have h : buildRegistry gitopsToolNames = Except.ok gitopsToolNames := by rfl
    unfold gitopsStartup
    rw [h]
    rfl
  case glmiss =>
    intro env h
    unfold checkGitLabAuth
    rw [h]
    rfl

/-- C3 witness: the credential-missing branch evaluated at the empty
environment. -/
theorem missing_credential_isolated_witness :
    github_list_workflow_runs_run ([]) ⟨("octo"), ("hello"), none, none, none, none, 30⟩
        (Except.ok ("{}")) =
      (formatToolResponse (.failure ("Failed to list workflow runs: GITHUB_API_KEY environment variable is not set. Please set it to use GitHub Actions tools.")), []) :=
  missing_credential_isolated.1 ([]) ⟨("octo"), ("hello"), none, none, none, none, 30⟩
    (Except.ok ("{}")) rfl

/-- The rejection `execAsync` produces when the subprocess is killed on
timeout: `killed: true` and no exit code. -/
def timeoutErr : ExecError :=
  ⟨("Command failed: npm install"), some (""), some (""), none, true⟩

/-- C4: counterexample.  On a timeout kill of its subprocess,
`npm_install` (which has no `try/catch`) propagates the error out of the
handler instead of returning a failure Response Envelope. -/
theorem npm_install_timeout_propagates :
    (npm_install_run ("/workspace") ⟨none, none, none⟩ (.err timeoutErr)).2 =
      Except.error timeoutErr
    ∧ ((npm_install_run ("/workspace") ⟨none, none, none⟩ (.err timeoutErr)).2.isOk = false) :=
  ⟨rfl, rfl⟩

/-- C4 amended: every subprocess-spawning handler passes a timeout to
`execAsync` (`args.timeout || 30000` for `execute_command`, hence 30000
when omitted; 300000 for `npm_install` and `npm_run_script`), and on a
subprocess error `execute_command` returns a failure envelope, while the
two npm handlers let the error propagate out of the handler (to be caught
at the dispatch boundary). -/
theorem subprocess_timeout_envelopes :
    (∀ (root : String) (args : CmdArgs) (outcome : ExecOutcome),
      (execute_command_run root args outcome).1.timeout = jsOrNum args.timeout 30000)
  ∧ (∀ (root command : String) (cw : Option String) (outcome : ExecOutcome),
      (execute_command_run root ⟨command, cw, none⟩ outcome).1.timeout = 30000)
  ∧ (∀ (root : String) (args : NpmInstallArgs) (outcome : ExecOutcome),
      (npm_install_run root args outcome).1.timeout = 300000)
  ∧ (∀ (root script : String) (outcome : ExecOutcome),
      (npm_run_script_run root script outcome).1.timeout = 300000)
  ∧ (∀ (root : String) (args : CmdArgs) (e : ExecError),
      (execute_command_run root args (.err e)).2 =
        Except.ok (formatToolResponse
          ⟨false, args.command, jsOrTrim e.stdout (""), jsOrTrim e.stderr e.message,
           jsOrNum e.code 1, some e.message⟩))
  ∧ (∀ (root : String) (args : NpmInstallArgs) (e : ExecError),
      (npm_install_run root args (.err e)).2 = Except.error e)
  ∧ (∀ (root script : String) (e : ExecError),
      (npm_run_script_run root script (.err e)).2 = Except.error e) :=
  ⟨fun _r _a _o => rfl, fun _r _c _w _o => rfl, fun _r _a _o => rfl,
   fun _r _s _o => rfl, fun _r _a _e => rfl, fun _r _a _e => rfl,
   fun _r _s _e => rfl⟩

/-- C5: code-bug exhibit.  A call to `execute_command` with `cwd:
"subdir"` runs the subprocess with working directory `/workspace` — the
workspace root — not `/workspace/subdir` as the schema-documented `cwd`
argument requires: the handler always passes `cwd: workspacePath` and
never reads `args.cwd`. -/
theorem execute_command_cwd_ignored :
    (execute_command_run ("/workspace") ⟨("pwd"), some ("subdir"), none⟩
        (.ok ("") (""))).1.cwd = ("/workspace")
    ∧ pathResolve ("/workspace") ("subdir") = ("/workspace/subdir")
    ∧ (("/workspace") : String) ≠ ("/workspace/subdir") :=
  ⟨rfl, by decide, by decide⟩

/-- C6: counterexample.  Validating `execute_command` arguments that
omit `timeout` yields validated arguments in which `timeout` is absent
(`undefined`), not the declared default 30000: the schema wraps
`.default(30000)` inside `.optional()`, and `ZodOptional` short-circuits
on an absent input. -/
theorem timeout_default_not_substituted :
    parseObject executeCommandShape [(("command"), JVal.str ("ls"))] =
      Except.ok [(("command"), some (JVal.str ("ls"))), (("cwd"), (none : Option JVal)),
                 (("timeout"), (none : Option JVal))]
    ∧ validatedField [(("command"), some (JVal.str ("ls"))), (("cwd"), none), (("timeout"), none)]
        ("timeout") ≠ some (JVal.num 30000) :=
  ⟨rfl, by decide⟩

/-- C6 amended: validation leaves `execute_command`'s `cwd` and
`timeout` absent when omitted (the `.default().optional()` wrapper order
skips the default), and the handler itself substitutes the default
(`args.timeout || 30000`, giving exactly 30000); schemas with the opposite
order (`per_page: z.number().optional().default(30)`) do populate the
validated arguments with the default; `read_file`'s JSON-schema `encoding`
default is likewise applied by the handler (`args.encoding || "utf8"`). -/
theorem default_substitution_amended :
    parseObject executeCommandShape [(("command"), JVal.str ("ls"))] =
      Except.ok [(("command"), some (JVal.str ("ls"))), (("cwd"), (none : Option JVal)),
                 (("timeout"), (none : Option JVal))]
    ∧ (∀ (root command : String) (cw : Option String),
        (execute_command_options root ⟨command, cw, none⟩).timeout = 30000)
    ∧ parseZod perPageSchema none = Except.ok (some (JVal.num 30))
    ∧ read_file_effectiveEncoding none = ("utf8") :=
  ⟨rfl, fun _ _ _ => rfl, rfl, rfl⟩

/-- C7: the 54 tool names contributed by the nine groups concatenated by
`src/index.ts` are pairwise distinct, so the startup registration loop
succeeds and registers them all; and registering any name already present
in a registry raises a configuration error naming the duplicate. -/
theorem registry_names_unique :
    allToolNames.Nodup
    ∧ buildRegistry allToolNames = Except.ok allToolNames
    ∧ (∀ (reg : List String) (name : String), name ∈ reg →
        registerTool reg name = Except.error (("Tool ") ++ name ++ (" is already registered"))) := by
  refine ⟨by decide, by rfl, ?_⟩
  intro reg name h
  unfold registerTool
  rw [if_pos h]

/-- C7 witness: registering a duplicate of `read_file` errors. -/
theorem registry_names_unique_witness :
    registerTool [("read_file")] ("read_file") =
      Except.error ("Tool read_file is already registered") :=
  registry_names_unique.2.2 [("read_file")] ("read_file") (by decide)

/-- C8: `execute_command` is total over subprocess failure: for every
outcome its result is an envelope (never a rethrown error), and for every
subprocess error the payload has `success: false`, the captured (trimmed)
stdout, the stderr or error message, `exitCode` equal to the error's code
with fallback 1, and the error message. -/
theorem execute_command_total_on_error :
    (∀ (root : String) (args : CmdArgs) (outcome : ExecOutcome),
      ((execute_command_run root args outcome).2).isOk = true)
    ∧ (∀ (root : String) (args : CmdArgs) (e : ExecError),
      (execute_command_run root args (.err e)).2 =
        Except.ok (formatToolResponse
          ⟨false, args.command, jsOrTrim e.stdout (""), jsOrTrim e.stderr e.message,
           jsOrNum e.code 1, some e.message⟩)) := by
  constructor
  · intro root args outcome
    cases outcome <;> rfl
  · intro root args e
    rfl


/-- Every path is the last entry of its own prefix list. -/
theorem self_mem_prefixesOf (d : FsPath) : d ∈ prefixesOf d := by
  unfold prefixesOf
  refine List.mem_map.mpr ⟨d.length, ?_, ?_⟩
  · exact List.mem_range.mpr (Nat.lt_succ_self _)
  · simp

/-- Members of a prefix list are no longer than the path. -/
theorem length_le_of_mem_prefixesOf {a d : FsPath} (h : a ∈ prefixesOf d) :
    a.length ≤ d.length := by
  unfold prefixesOf at h
  rcases List.mem_map.mp h with ⟨i, _, rfl⟩
  simp [List.length_take]

/-- A successful recursive mkdir makes its target directory exist. -/
theorem mkdirRec_isDir_self {st st' : FS} {d : FsPath} (h : mkdirRec st d = some st') :
    isDir st' d := by
  unfold mkdirRec at h
  split at h
  · cases h
  · cases h
    unfold isDir
    by_cases hp : d ∈ st.dirs
    · exact List.mem_append_left _ hp
    · refine List.mem_append_right _ (List.mem_filter.mpr ⟨self_mem_prefixesOf _, ?_⟩)
      simpa [isDir] using hp

/-- Recursive mkdir creates no directory longer than its target. -/
theorem mkdirRec_isDir_bound {st st' : FS} {d x : FsPath} (h : mkdirRec st d = some st')
    (hx : isDir st' x) : isDir st x ∨ x.length ≤ d.length := by
  unfold mkdirRec at h
  split at h
  · cases h
  · cases h
    unfold isDir at hx
    rcases List.mem_append.mp hx with hin | hin
    · exact Or.inl hin
    · exact Or.inr (length_le_of_mem_prefixesOf (List.mem_filter.mp hin).1)

/-- C9: for an in-workspace path, `write_file` first creates the target's
missing parent directories recursively (`fs.mkdir(dirname, { recursive:
true })`) and then writes, so it succeeds even when the parent directory
does not yet exist, returning `success: true` with `size` equal to the
written content's length, and afterwards the file holds the content. -/
theorem write_file_creates_parents
    (root path content vp : String) (st : FS)
    (h1 : validatePath root path = Except.ok vp)
    (h2 : ∀ a ∈ prefixesOf (segsOf vp).dropLast, ¬ isFile st a)
    (h3 : ¬ isDir st (segsOf vp))
    (h4 : segsOf vp ≠ []) :
    (write_file_handler root st path content).result =
      Except.ok (formatToolResponse ⟨true, path, content.length⟩)
    ∧ readFileFS (write_file_handler root st path content).fs (segsOf vp) = some content
    ∧ (write_file_handler root st path content).ops =
        [("fs.mkdir ") ++ dirname vp, ("fs.writeFile ") ++ vp] := by
  have hany : (prefixesOf (segsOf vp).dropLast).any (fun a => decide (isFile st a)) = false := by
    rw [List.any_eq_false]
    intro a ha
    simpa using h2 a ha
  cases hmk : mkdirRec st (segsOf vp).dropLast with
  | none =>
    exfalso
    unfold mkdirRec at hmk
    rw [hany] at hmk
    simp at hmk
  | some st1 =>
    have hparent : isDir st1 (segsOf vp).dropLast := mkdirRec_isDir_self hmk
    have hnotdir : ¬ isDir st1 (segsOf vp) := by
      intro hd
      rcases mkdirRec_isDir_bound hmk hd with hin | hle
      · exact h3 hin
      · have hlen : (segsOf vp).dropLast.length = (segsOf vp).length - 1 := by
          simp [List.length_dropLast]
        have hpos : 0 < (segsOf vp).length := List.length_pos.mpr h4
        omega
    have hwr : writeFileFS st1 (segsOf vp) content =
        some { st1 with files := ((segsOf vp), content) :: st1.files } := by
      unfold writeFileFS
      rw [if_pos ⟨hparent, hnotdir⟩]
    unfold write_file_handler
    rw [h1]
    dsimp only
    rw [hmk]
    dsimp only
    rw [hwr]
    refine ⟨rfl, ?_, rfl⟩
    unfold readFileFS
    simp

/-- C9 witness: writing `a/b/c.txt` in a filesystem where only the root
directory exists. -/
theorem write_file_creates_parents_witness :
    (write_file_handler ("/workspace") ⟨[[("workspace")]], []⟩ ("a/b/c.txt") ("hello")).result =
      Except.ok (formatToolResponse ⟨true, ("a/b/c.txt"), 5⟩)
    ∧ readFileFS (write_file_handler ("/workspace") ⟨[[("workspace")]], []⟩
        ("a/b/c.txt") ("hello")).fs (segsOf ("/workspace/a/b/c.txt")) = some ("hello")
    ∧ (write_file_handler ("/workspace") ⟨[[("workspace")]], []⟩ ("a/b/c.txt") ("hello")).ops =
        [("fs.mkdir ") ++ dirname ("/workspace/a/b/c.txt"), ("fs.writeFile ") ++ ("/workspace/a/b/c.txt")] :=
  write_file_creates_parents ("/workspace") ("a/b/c.txt") ("hello") ("/workspace/a/b/c.txt")
    ⟨[[("workspace")]], []⟩ rfl (by decide) (by decide) (by decide)

/-- C10 amended: `get_environment` with no variable argument returns the
entire process environment (every binding, credentials included, since the
payload is the environment itself); with a nonempty variable argument it
returns only that variable, whose reported value is the set value when
nonempty and `null` when unset or empty (`process.env[v] || null`). -/
theorem get_environment_amended :
    (∀ (env : Env) (v : String), v ≠ ("") →
      get_environment_run env (some v) =
        formatToolResponse (.varValue v (jsOrNull (lookupEnv env v))))
  ∧ (∀ env : Env, get_environment_run env none = formatToolResponse (.allEnv env))
  ∧ (∀ s : String, s ≠ ("") → jsOrNull (some s) = some s)
  ∧ jsOrNull none = none := by
  refine ⟨?hsomev, ?hnonev, ?hsetv, rfl⟩
  case hsomev =>
    intro env v hv
    unfold get_environment_run jsTruthy
    simp [hv]
  case hnonev =>
    intro env
    rfl
  case hsetv =>
    intro s hs
    simp [jsOrNull, hs]

/-- C10 witness: querying a set credential variable returns its value. -/
theorem get_environment_amended_witness :
    get_environment_run [(("GITHUB_API_KEY"), ("tok"))] (some ("GITHUB_API_KEY")) =
      formatToolResponse (.varValue ("GITHUB_API_KEY") (some ("tok"))) :=
  get_environment_amended.1 [(("GITHUB_API_KEY"), ("tok"))] ("GITHUB_API_KEY") (by decide)

/-- C10: counterexample.  Called with the empty-string variable argument
(a supplied variable), `get_environment` returns the whole environment,
not that variable's value-or-null: `if (args.variable)` treats `""` as
absent. -/
theorem get_environment_empty_variable :
    get_environment_run [(("PATH"), ("/usr/bin"))] (some ("")) =
      formatToolResponse (.allEnv [(("PATH"), ("/usr/bin"))])
    ∧ get_environment_run [(("PATH"), ("/usr/bin"))] (some ("")) ≠
      formatToolResponse (.varValue ("") none) :=
  ⟨rfl, by decide⟩

end MVCT
